import Mathlib

/-!
Shallow embedding of `sheets_agent.py`: a conversational Google Sheets agent
exposing three tools (`add_sheet`, `delete_sheet`, `list_sheets`) and a
read-eval loop.  The remote spreadsheet service and the exception flow of the
Python `try`/`except` blocks are modelled explicitly; machine effects
(prints, sleeps, API calls) are recorded in an event trace.
-/

namespace SheetsAgent

/-- A Python exception that can be raised inside a tool's `try` body.
All modelled exceptions are instances of `Exception` (`ssl.SSLError`
derives from `OSError`, `UnexpectedModelBehavior` from `Exception`).
The carried string models `str(e)`. -/
inductive PyExc
  | sslError (msg : String)
  | unexpectedModelBehavior (msg : String)
  | otherError (msg : String)
deriving DecidableEq, Repr

/-- Models Python `str(e)`. -/
def excMsg : PyExc → String
  | .sslError m => m
  | .unexpectedModelBehavior m => m
  | .otherError m => m

/-- The exception classes that appear in the source's `except` clauses. -/
inductive PyClass
  | exceptionCls
  | umbCls
deriving DecidableEq, Repr

/-- One entry of the tuple given to a Python `except` clause: either a real
exception class, or an object that is not a `BaseException` subclass — the
source puts the integer constant `ssl.SSL_ERROR_SSL` in its `except`
clauses (lines 75, 122, 138). -/
inductive Catcher
  | cls (c : PyClass)
  | nonClass
deriving DecidableEq, Repr

/-- Python `isinstance` for the modelled hierarchy: every modelled exception is an
`Exception`; only `UnexpectedModelBehavior` is an `UnexpectedModelBehavior`. -/
def isInstanceOf (e : PyExc) : PyClass → Bool
  | .exceptionCls => true
  | .umbCls =>
    match e with
    | .unexpectedModelBehavior _ => true
    | _ => false

/-- CPython validates every entry of an `except` tuple before matching
(`check_except_type_valid` in ceval.c); a non-class entry makes the clause
invalid. -/
def clauseValid (cs : List Catcher) : Bool :=
  cs.all (fun c => match c with | .cls _ => true | .nonClass => false)

/-- Whether the raised exception matches some class of the clause tuple. -/
def clauseMatches (e : PyExc) (cs : List Catcher) : Bool :=
  cs.any (fun c => match c with | .cls k => isInstanceOf e k | .nonClass => false)

/-- The message of the `TypeError` CPython raises for an invalid `except`
tuple (`CANNOT_CATCH_MSG` in ceval.c). -/
def cannotCatchMsg : String :=
  "catching classes that do not inherit from BaseException is not allowed"

/-- An exception propagating out of a tool to the agent runtime. -/
inductive Raised
  | modelRetry (msg : String)
  | typeError (msg : String)
  | orig (e : PyExc)
deriving DecidableEq, Repr

/-- Outcome of one tool invocation: a value returned normally, or an
exception raised to the agent runtime. -/
inductive PyOutcome (α : Type)
  | ret (v : α)
  | raised (r : Raised)
deriving DecidableEq, Repr

/-- CPython `except`-clause dispatch: clauses are tried in source order; a
reached clause is first validated (an invalid tuple raises `TypeError`
before any matching), then matched; with no matching clause the original
exception propagates. -/
def dispatchExc {α : Type} (e : PyExc) :
    List (List Catcher × (PyExc → PyOutcome α)) → PyOutcome α
  | [] => .raised (.orig e)
  | (cs, body) :: rest =>
    if clauseValid cs then
      if clauseMatches e cs then body e else dispatchExc e rest
    else .raised (.typeError cannotCatchMsg)

/-- The `sheet['properties']` record of a sheet entry in the metadata response. -/
structure SheetProperties where
  sheetId : Nat
  title : String
deriving DecidableEq, Repr

/-- One entry of the `sheets` list of a metadata response. -/
structure Sheet where
  properties : SheetProperties
deriving DecidableEq, Repr

/-- The metadata dict returned by `spreadsheets().get(...).execute()`:
`none` models a response without a `sheets` key, read through
`sheet_metadata.get('sheets', [])`. -/
abbrev Metadata : Type := Option (List Sheet)

/-- One record `{'id': ..., 'name': ...}` produced by `list_sheets`. -/
structure SheetRecord where
  id : Nat
  name : String
deriving DecidableEq, Repr

/-- A structural-change request inside a `batchUpdate` body. -/
inductive Request
  | addSheet (title : String)
  | deleteSheet (sheetId : Nat)
deriving DecidableEq, Repr

/-- The confirmation returned by `batchUpdate(...).execute()`; the service
echoes the applied requests. -/
structure Response where
  appliedRequests : List Request
deriving DecidableEq, Repr

/-- Outcome of one remote API call: the value `execute()` returns, or the
exception it raises. -/
inductive Remote (α : Type)
  | ok (v : α)
  | raise (e : PyExc)

/-- Observable effects of a tool invocation, in order. -/
inductive Event
  | printed (s : String)
  | getMetadata
  | batchUpdate (reqs : List Request)
  | slept (seconds : Nat)
deriving DecidableEq, Repr

/-- The `Any` value a tool returns to the agent runtime. -/
inductive ToolRet
  | response (r : Response)
  | str (s : String)
  | records (l : List SheetRecord)
deriving DecidableEq, Repr

/-- The two `except` clauses shared verbatim by `add_sheet` (lines 72-76)
and `delete_sheet` (lines 119-123): first
`except (Exception, UnexpectedModelBehavior)` returning an error string,
then `except ssl.SSL_ERROR_SSL` (a non-class constant) raising
`ModelRetry`. -/
def sheetToolHandlers : List (List Catcher × (PyExc → PyOutcome ToolRet)) :=
  [ ([Catcher.cls .exceptionCls, Catcher.cls .umbCls],
      fun e => .ret (.str ("An error occurred: " ++ excMsg e))),
    ([Catcher.nonClass],
      fun e => .raised (.modelRetry ("An error occurred: " ++ excMsg e ++ ". Please try again."))) ]

/-- The single `except (Exception, ssl.SSL_ERROR_SSL)` clause of
`list_sheets` (lines 138-139): its tuple contains the non-class constant
`ssl.SSL_ERROR_SSL`; its body raises `ModelRetry`. -/
def listSheetsHandlers : List (List Catcher × (PyExc → PyOutcome ToolRet)) :=
  [ ([Catcher.cls .exceptionCls, Catcher.nonClass],
      fun e => .raised (.modelRetry ("An error occurred: " ++ excMsg e ++ ". Please try again."))) ]

/-- The per-tool retry budget declared by `@sheets_agent.tool(retries=2)`. -/
def toolRetries : Nat := 2

/-- The agent-level retry budget declared by `Agent(..., retries=3)`. -/
def agentRetries : Nat := 3

/-- The `for sheet in sheet_metadata.get('sheets', []): ...` loop of
`delete_sheet` (lines 95-100): scan in list order, take the `sheetId` of
the first entry whose `title` equals `sheet_name`, stop (`break`). -/
def findSheetId (sheets : List Sheet) (sheet_name : String) : Option Nat :=
  match sheets with
  | [] => none
  | sheet :: rest =>
    if sheet.properties.title == sheet_name then some sheet.properties.sheetId
    else findSheetId rest sheet_name

/-- Embedding of `add_sheet` (lines 43-76).  `upd` is the behaviour of
`batchUpdate(...).execute()` on the request body the tool builds; the
modelled failure point is that remote call.  Returns the tool outcome and
the event trace. -/
def add_sheet (sheet_name : String) (upd : List Request → Remote Response) :
    PyOutcome ToolRet × List Event :=
  let pr := Event.printed ("Calling add_sheet to add sheet \"" ++ sheet_name ++ "\"")
  let request_body := [Request.addSheet sheet_name]
  match upd request_body with
  | .ok response =>
    (.ret (.response response), [pr, .batchUpdate request_body, .slept 1])
  | .raise e =>
    (dispatchExc e sheetToolHandlers, [pr, .batchUpdate request_body])

/-- Embedding of `delete_sheet` (lines 78-123).  `get` is the behaviour of
`spreadsheets().get(...).execute()`, `upd` that of
`batchUpdate(...).execute()`; those remote calls are the modelled failure
points. -/
def delete_sheet (sheet_name : String) (get : Remote Metadata)
    (upd : List Request → Remote Response) : PyOutcome ToolRet × List Event :=
  let pr := Event.printed ("Calling delete_sheet to delete sheet \"" ++ sheet_name ++ "\"")
  match get with
  | .raise e => (dispatchExc e sheetToolHandlers, [pr, .getMetadata])
  | .ok sheet_metadata =>
    match findSheetId (sheet_metadata.getD []) sheet_name with
    | none =>
      (.ret (.str ("Sheet " ++ sheet_name ++ " is already deleted or does not exist")),
        [pr, .getMetadata, .printed ("Sheet " ++ sheet_name ++ " not found")])
    | some sheet_id =>
      let request_body := [Request.deleteSheet sheet_id]
      match upd request_body with
      | .ok response =>
        (.ret (.response response), [pr, .getMetadata, .batchUpdate request_body])
      | .raise e =>
        (dispatchExc e sheetToolHandlers, [pr, .getMetadata, .batchUpdate request_body])

/-- Embedding of `list_sheets` (lines 125-139).  `get` is the behaviour of
`spreadsheets().get(...).execute()`, the modelled failure point. -/
def list_sheets (get : Remote Metadata) : PyOutcome ToolRet × List Event :=
  let pr := Event.printed "Calling list_sheets"
  match get with
  | .raise e => (dispatchExc e listSheetsHandlers, [pr, .getMetadata])
  | .ok sheet_metadata =>
    let sheets := sheet_metadata.getD []
    if sheets.isEmpty then (.ret (.records []), [pr, .getMetadata])
    else
      (.ret (.records (sheets.map (fun sheet =>
          { id := sheet.properties.sheetId, name := sheet.properties.title }))),
        [pr, .getMetadata])

/-- The remote spreadsheet: its current list of sheets. -/
abbrev SpreadsheetState : Type := List Sheet

/-- A fresh sheet identifier chosen by the service for `addSheet`. -/
def freshSheetId (st : SpreadsheetState) : Nat :=
  (st.map (fun s => s.properties.sheetId)).foldr max 0 + 1

/-- How the remote service applies one structural-change request. -/
def applyRequest (st : SpreadsheetState) : Request → SpreadsheetState
  | .addSheet title => st ++ [⟨⟨freshSheetId st, title⟩⟩]
  | .deleteSheet sid => st.filter (fun s => s.properties.sheetId ≠ sid)

/-- Replay the remote-visible effects of a trace on the spreadsheet. -/
def applyEvents (st : SpreadsheetState) (evs : List Event) : SpreadsheetState :=
  evs.foldl
    (fun s ev =>
      match ev with
      | .batchUpdate reqs => reqs.foldl applyRequest s
      | _ => s)
    st

/-- A healthy service: `get` returns the current sheets. -/
def serviceGet (st : SpreadsheetState) : Remote Metadata := .ok (some st)

/-- A healthy service: `batchUpdate` succeeds and echoes the requests. -/
def serviceUpd : List Request → Remote Response := fun reqs => .ok ⟨reqs⟩

/-- Run of `delete_sheet` against a healthy service holding state `st`:
outcome, resulting remote state, trace. -/
def delete_sheetRun (st : SpreadsheetState) (sheet_name : String) :
    PyOutcome ToolRet × SpreadsheetState × List Event :=
  let r := delete_sheet sheet_name (serviceGet st) serviceUpd
  (r.1, applyEvents st r.2, r.2)

/-- Number of sheets of `st` whose title is `name`. -/
def titleCount (name : String) (st : SpreadsheetState) : Nat :=
  (st.filter (fun s => s.properties.title == name)).length

/-- True iff the tool returned normally (no exception reached the agent
runtime). -/
def returnsNormally : PyOutcome ToolRet → Bool
  | .ret _ => true
  | .raised _ => false

/-- Lowercase one character of the ASCII range, as Python `str.lower` does
on the prompts considered here. -/
def asciiLower (c : Char) : Char :=
  if 65 ≤ c.toNat ∧ c.toNat ≤ 90 then Char.ofNat (c.toNat + 32) else c

/-- Models Python `str.lower` on the string's characters. -/
def pyLower (s : String) : String := String.mk (s.data.map asciiLower)

/-- Models Python `str.strip`: remove leading and trailing whitespace. -/
def pyStrip (s : String) : String :=
  String.mk (((s.data.dropWhile Char.isWhitespace).reverse.dropWhile
    Char.isWhitespace).reverse)

/-- What one turn of the `__main__` loop does. -/
inductive SessionEvent
  | ranTurn (text : String) (hasHistory : Bool)
  | exited (message : String)
deriving DecidableEq, Repr

/-- Embedding of the `while True` loop (lines 155-160): each prompt is first
compared, lowercased but un-stripped, against the exit sentinel; otherwise
`run_sync` receives the stripped prompt with message history. -/
def sessionLoop : List String → List SessionEvent
  | [] => []
  | prompt :: rest =>
    if pyLower prompt == "exit" then [SessionEvent.exited "See you next time"]
    else SessionEvent.ranTurn (pyStrip prompt) true :: sessionLoop rest

/-- Embedding of the `__main__` block (lines 148-160): the first prompt is
handled before the loop, without message history. -/
def sessionMain : List String → List SessionEvent
  | [] => []
  | prompt :: rest =>
    if pyLower prompt == "exit" then [SessionEvent.exited "See you next time"]
    else SessionEvent.ranTurn (pyStrip prompt) false :: sessionLoop rest

/-! ### Helper lemmas -/

/-- The first clause of the add/delete handlers catches every modelled
exception and returns the error string; dispatch never reaches the SSL
clause. -/
lemma dispatchExc_sheetToolHandlers (e : PyExc) :
    dispatchExc e sheetToolHandlers = .ret (.str ("An error occurred: " ++ excMsg e)) := rfl

/-- The single clause of the `list_sheets` handler has an invalid tuple, so
dispatch raises `TypeError` before any matching. -/
lemma dispatchExc_listSheetsHandlers (e : PyExc) :
    dispatchExc e listSheetsHandlers = .raised (.typeError cannotCatchMsg) := rfl

/-- The `break`-ing scan of `delete_sheet` is the standard first-match
search composed with the projection to `sheetId`. -/
lemma findSheetId_eq_find? (sheets : List Sheet) (name : String) :
    findSheetId sheets name
      = (sheets.find? (fun s => s.properties.title == name)).map
          (fun s => s.properties.sheetId) := by
  induction sheets with
  | nil => rfl
  | cons a t ih =>
    cases h : (a.properties.title == name) with
    | true => simp [findSheetId, List.find?, h]
    | false => simp [findSheetId, List.find?, h, ih]

/-- The scan misses exactly when no sheet carries the title. -/
lemma findSheetId_eq_none_iff (sheets : List Sheet) (name : String) :
    findSheetId sheets name = none ↔ ∀ s ∈ sheets, s.properties.title ≠ name := by
  induction sheets with
  | nil => simp [findSheetId]
  | cons a t ih =>
    cases h : (a.properties.title == name) with
    | true =>
      have ha : a.properties.title = name := eq_of_beq h
      simp [findSheetId, h, ha]
    | false =>
      have ha : a.properties.title ≠ name := by
        intro he
        rw [he] at h
        simp at h
      simp [findSheetId, h, ih, ha]

/-- A list of length at most one has at most one member. -/
lemma eq_of_mem_of_length_le_one {α : Type} {l : List α} (h : l.length ≤ 1)
    {a b : α} (ha : a ∈ l) (hb : b ∈ l) : a = b := by
  cases l with
  | nil => simp at ha
  | cons x t =>
    cases t with
    | nil =>
      simp at ha hb
      rw [ha, hb]
    | cons y u =>
      simp [List.length_cons] at h

/-! ### Claim theorems -/

/-- Claim C5: `list_sheets` projects every sheet entry of the metadata to a
record of its identifier and title, preserving the order received from the
service; on the two-sheet example it returns the two records in order. -/
theorem list_sheets_projection :
    (∀ md : Metadata,
      list_sheets (Remote.ok md)
        = (.ret (.records ((md.getD []).map (fun sheet =>
              { id := sheet.properties.sheetId, name := sheet.properties.title }))),
           [Event.printed "Calling list_sheets", Event.getMetadata]))
    ∧ list_sheets (Remote.ok (some [⟨⟨1, "Sheet1"⟩⟩, ⟨⟨2, "Sheet2"⟩⟩]))
        = (.ret (.records [⟨1, "Sheet1"⟩, ⟨2, "Sheet2"⟩]),
           [Event.printed "Calling list_sheets", Event.getMetadata]) := by
  constructor
  · intro md
    cases md with
    | none => rfl
    | some l =>
      cases l with
      | nil => rfl
      | cons a t => rfl
  · rfl

/-- Claim C6: on a spreadsheet with no sheets, `list_sheets` returns the
empty list normally rather than signalling an error. -/
theorem list_sheets_empty (md : Metadata) (h : md.getD [] = []) :
    list_sheets (Remote.ok md)
      = (.ret (.records []), [Event.printed "Calling list_sheets", Event.getMetadata]) := by
  cases md with
  | none => rfl
  | some l =>
    cases l with
    | nil => rfl
    | cons a t => simp at h

/-- Witness for `list_sheets_empty` at the empty metadata. -/
theorem list_sheets_empty_witness :
    (some ([] : List Sheet) : Metadata).getD [] = []
    ∧ list_sheets (Remote.ok (some []))
        = (.ret (.records []), [Event.printed "Calling list_sheets", Event.getMetadata]) :=
  ⟨rfl, list_sheets_empty (some []) rfl⟩

/-- Claim C9: every exception raised in the `try` body of `add_sheet` or
`delete_sheet` is caught by the leading `except (Exception,
UnexpectedModelBehavior)` clause and turned into the string
`An error occurred: <message>`; the later `except ssl.SSL_ERROR_SSL`
clause that raises `ModelRetry` is unreachable, so both tools always
return normally to the agent runtime. -/
theorem catch_all_swallows_exceptions :
    (∀ e : PyExc,
      dispatchExc e sheetToolHandlers
        = PyOutcome.ret (.str ("An error occurred: " ++ excMsg e)))
    ∧ (∀ (sheet_name : String) (e : PyExc),
      add_sheet sheet_name (fun _ => Remote.raise e)
        = (.ret (.str ("An error occurred: " ++ excMsg e)),
           [Event.printed ("Calling add_sheet to add sheet \"" ++ sheet_name ++ "\""),
            Event.batchUpdate [Request.addSheet sheet_name]]))
    ∧ (∀ (sheet_name : String) (e : PyExc) (upd : List Request → Remote Response),
      delete_sheet sheet_name (Remote.raise e) upd
        = (.ret (.str ("An error occurred: " ++ excMsg e)),
           [Event.printed ("Calling delete_sheet to delete sheet \"" ++ sheet_name ++ "\""),
            Event.getMetadata]))
    ∧ (∀ (sheet_name : String) (get : Remote Metadata)
        (upd : List Request → Remote Response),
      returnsNormally (add_sheet sheet_name upd).1 = true
      ∧ returnsNormally (delete_sheet sheet_name get upd).1 = true) := by
  refine ⟨fun e => dispatchExc_sheetToolHandlers e,
    fun sheet_name e => by simp [add_sheet, dispatchExc_sheetToolHandlers],
    fun sheet_name e upd => by simp [delete_sheet, dispatchExc_sheetToolHandlers],
    fun sheet_name get upd => ⟨?_, ?_⟩⟩
  · unfold add_sheet
    cases h : upd [Request.addSheet sheet_name] with
    | ok r => simp [h, returnsNormally]
    | raise e => simp [h, dispatchExc_sheetToolHandlers, returnsNormally]
  · unfold delete_sheet
    cases get with
    | raise e => simp [dispatchExc_sheetToolHandlers, returnsNormally]
    | ok md =>
      cases hf : findSheetId (md.getD []) sheet_name with
      | none => simp [hf, returnsNormally]
      | some sid =>
        cases h : upd [Request.deleteSheet sid] with
        | ok r => simp [hf, h, returnsNormally]
        | raise e => simp [hf, h, dispatchExc_sheetToolHandlers, returnsNormally]

/-- Claim C1 (code bug): an SSL transport failure during `add_sheet` or
`delete_sheet` is swallowed by the leading catch-all clause and surfaced
immediately as an error string; no retryable condition is ever signalled
to the agent runtime, so the declared retry budget of 2 is never used. -/
theorem ssl_failure_surfaced_as_string :
    (add_sheet "Budget" (fun _ => Remote.raise (PyExc.sslError "transport failure"))).1
      = PyOutcome.ret (.str "An error occurred: transport failure")
    ∧ (delete_sheet "Budget"
        (Remote.raise (PyExc.sslError "transport failure")) serviceUpd).1
      = PyOutcome.ret (.str "An error occurred: transport failure") :=
  ⟨rfl, rfl⟩

/-- Claim C7 (code bug): a failure inside `list_sheets` hits the clause
`except (Exception, ssl.SSL_ERROR_SSL)`, whose tuple contains the
non-class constant `ssl.SSL_ERROR_SSL`; CPython therefore raises
`TypeError` instead of entering the handler, so the `ModelRetry` retry
signal is never raised. -/
theorem list_sheets_failure_raises_type_error :
    (∀ e : PyExc,
      list_sheets (Remote.raise e)
        = (.raised (.typeError cannotCatchMsg),
           [Event.printed "Calling list_sheets", Event.getMetadata]))
    ∧ (list_sheets (Remote.raise (PyExc.sslError "ssl handshake failure"))).1
      = .raised (.typeError cannotCatchMsg) :=
  ⟨fun e => by simp [list_sheets, dispatchExc_listSheetsHandlers], rfl⟩

/-- Claim C4: for a non-empty sheet name, a successful `add_sheet` issues
exactly one `addSheet` request titled with that name, sleeps one second
after the successful response, and returns the adapter's raw
confirmation; on a failed request it returns an error string. -/
theorem add_sheet_behavior (sheet_name : String) (resp : Response) (e : PyExc)
    (upd updf : List Request → Remote Response)
    (hne : sheet_name ≠ "")
    (hok : upd [Request.addSheet sheet_name] = Remote.ok resp)
    (hraise : updf [Request.addSheet sheet_name] = Remote.raise e) :
    add_sheet sheet_name upd
      = (.ret (.response resp),
         [Event.printed ("Calling add_sheet to add sheet \"" ++ sheet_name ++ "\""),
          Event.batchUpdate [Request.addSheet sheet_name], Event.slept 1])
    ∧ add_sheet sheet_name updf
      = (.ret (.str ("An error occurred: " ++ excMsg e)),
         [Event.printed ("Calling add_sheet to add sheet \"" ++ sheet_name ++ "\""),
          Event.batchUpdate [Request.addSheet sheet_name]]) := by
  constructor
  · simp [add_sheet, hok]
  · simp [add_sheet, hraise, dispatchExc_sheetToolHandlers]

/-- Witness for `add_sheet_behavior` on the name `Budget` with a healthy
service. -/
theorem add_sheet_behavior_witness :
    ("Budget" : String) ≠ ""
    ∧ add_sheet "Budget" serviceUpd
        = (.ret (.response ⟨[Request.addSheet "Budget"]⟩),
           [Event.printed "Calling add_sheet to add sheet \"Budget\"",
            Event.batchUpdate [Request.addSheet "Budget"], Event.slept 1]) := by
  have hne : ("Budget" : String) ≠ "" := by decide
  refine ⟨hne, ?_⟩
  have h := (add_sheet_behavior "Budget" ⟨[Request.addSheet "Budget"]⟩
      (PyExc.sslError "x") serviceUpd
      (fun _ => Remote.raise (PyExc.sslError "x")) hne rfl rfl).1
  rw [h]
  rfl

/-- Claim C3: when some sheet carries the given title, `delete_sheet` picks
the identifier of the first title match in list order, issues exactly one
structural-change request deleting by that identifier, and returns the
adapter's confirmation; the service state loses exactly the sheets with
that identifier. -/
theorem delete_sheet_first_match (st : SpreadsheetState) (sheet_name : String) (s : Sheet)
    (h : st.find? (fun t => t.properties.title == sheet_name) = some s) :
    delete_sheetRun st sheet_name
      = (.ret (.response ⟨[Request.deleteSheet s.properties.sheetId]⟩),
         st.filter (fun t => t.properties.sheetId ≠ s.properties.sheetId),
         [Event.printed ("Calling delete_sheet to delete sheet \"" ++ sheet_name ++ "\""),
          Event.getMetadata,
          Event.batchUpdate [Request.deleteSheet s.properties.sheetId]]) := by
  have hf : findSheetId st sheet_name = some s.properties.sheetId := by
    rw [findSheetId_eq_find?, h]
    rfl
  simp [delete_sheetRun, delete_sheet, serviceGet, serviceUpd, hf, applyEvents, applyRequest]

/-- Witness for `delete_sheet_first_match` on a spreadsheet holding two
sheets both titled `X`: the first one (identifier 7) is the one deleted. -/
theorem delete_sheet_first_match_witness :
    ([⟨⟨7, "X"⟩⟩, ⟨⟨9, "X"⟩⟩] : SpreadsheetState).find?
        (fun t => t.properties.title == "X") = some ⟨⟨7, "X"⟩⟩
    ∧ delete_sheetRun [⟨⟨7, "X"⟩⟩, ⟨⟨9, "X"⟩⟩] "X"
        = (.ret (.response ⟨[Request.deleteSheet 7]⟩),
           [⟨⟨9, "X"⟩⟩],
           [Event.printed "Calling delete_sheet to delete sheet \"X\"",
            Event.getMetadata, Event.batchUpdate [Request.deleteSheet 7]]) := by
  refine ⟨by decide, ?_⟩
  have h := delete_sheet_first_match [⟨⟨7, "X"⟩⟩, ⟨⟨9, "X"⟩⟩] "X" ⟨⟨7, "X"⟩⟩ (by decide)
  rw [h]
  rfl

/-- Claim C2: when no fetched sheet carries the given title, `delete_sheet`
returns the human-readable already-deleted message as a normal result,
issues no structural-change request, and leaves the remote state
unchanged; and when the title occurs at most once, deleting it twice in a
row yields that message on the second call. -/
theorem delete_sheet_missing_is_noop (st : SpreadsheetState) (sheet_name : String) :
    (titleCount sheet_name st = 0 →
      delete_sheetRun st sheet_name
        = (.ret (.str ("Sheet " ++ sheet_name ++ " is already deleted or does not exist")),
           st,
           [Event.printed ("Calling delete_sheet to delete sheet \"" ++ sheet_name ++ "\""),
            Event.getMetadata,
            Event.printed ("Sheet " ++ sheet_name ++ " not found")]))
    ∧ (titleCount sheet_name st ≤ 1 →
      (delete_sheetRun (delete_sheetRun st sheet_name).2.1 sheet_name).1
        = .ret (.str ("Sheet " ++ sheet_name ++ " is already deleted or does not exist"))) := by
  have notfound : ∀ t : SpreadsheetState, titleCount sheet_name t = 0 →
      findSheetId t sheet_name = none := by
    intro t h0
    have hfil : t.filter (fun s => s.properties.title == sheet_name) = [] :=
      List.length_eq_zero.mp h0
    rw [findSheetId_eq_none_iff]
    intro s hs he
    have hmem : s ∈ t.filter (fun u => u.properties.title == sheet_name) :=
      List.mem_filter.mpr ⟨hs, by rw [he]; exact beq_self_eq_true sheet_name⟩
    rw [hfil] at hmem
    simp at hmem
  constructor
  · intro h0
    have hnone := notfound st h0
    simp [delete_sheetRun, delete_sheet, serviceGet, hnone, applyEvents]
  · intro h1
    cases hf : findSheetId st sheet_name with
    | none =>
      have hst : (delete_sheetRun st sheet_name).2.1 = st := by
        simp [delete_sheetRun, delete_sheet, serviceGet, hf, applyEvents]
      rw [hst]
      simp [delete_sheetRun, delete_sheet, serviceGet, hf]
    | some sid =>
      rw [findSheetId_eq_find?] at hf
      rcases Option.map_eq_some'.mp hf with ⟨s, hfind, hsid⟩
      have hfid : findSheetId st sheet_name = some sid := by
        rw [findSheetId_eq_find?, hfind]
        simp [hsid]
      have hst : (delete_sheetRun st sheet_name).2.1
          = st.filter (fun u => u.properties.sheetId ≠ sid) := by
        simp [delete_sheetRun, delete_sheet, serviceGet, serviceUpd, hfid,
          applyEvents, applyRequest]
      have hps := List.find?_some hfind
      have hmem_s : s ∈ st.filter (fun u => u.properties.title == sheet_name) :=
        List.mem_filter.mpr ⟨List.mem_of_find?_eq_some hfind, hps⟩
      have hnone1 : findSheetId (st.filter (fun u => u.properties.sheetId ≠ sid))
          sheet_name = none := by
        rw [findSheetId_eq_none_iff]
        intro t ht he
        have ht2 := List.mem_filter.mp ht
        have hmem_t : t ∈ st.filter (fun u => u.properties.title == sheet_name) :=
          List.mem_filter.mpr ⟨ht2.1, by rw [he]; exact beq_self_eq_true sheet_name⟩
        have hts : t = s := eq_of_mem_of_length_le_one h1 hmem_t hmem_s
        have : t.properties.sheetId ≠ sid := by
          have := ht2.2
          simpa using this
        rw [hts, hsid] at this
        exact this rfl
      rw [hst]
      simp only [ne_eq, decide_not] at hnone1
      simp [delete_sheetRun, delete_sheet, serviceGet, hnone1]

/-- Witness for `delete_sheet_missing_is_noop`: on a one-sheet spreadsheet
titled `X`, deleting `Y` is a no-op with the already-deleted message, and
deleting `X` twice yields the message on the second call. -/
theorem delete_sheet_missing_is_noop_witness :
    titleCount "Y" ([⟨⟨1, "X"⟩⟩] : SpreadsheetState) = 0
    ∧ titleCount "X" ([⟨⟨1, "X"⟩⟩] : SpreadsheetState) ≤ 1
    ∧ delete_sheetRun [⟨⟨1, "X"⟩⟩] "Y"
        = (.ret (.str "Sheet Y is already deleted or does not exist"),
           [⟨⟨1, "X"⟩⟩],
           [Event.printed "Calling delete_sheet to delete sheet \"Y\"",
            Event.getMetadata, Event.printed "Sheet Y not found"])
    ∧ (delete_sheetRun (delete_sheetRun [⟨⟨1, "X"⟩⟩] "X").2.1 "X").1
        = .ret (.str "Sheet X is already deleted or does not exist") := by
  refine ⟨by decide, by decide, ?_, ?_⟩
  · have h := (delete_sheet_missing_is_noop [⟨⟨1, "X"⟩⟩] "Y").1 (by decide)
    rw [h]
    rfl
  · have h := (delete_sheet_missing_is_noop [⟨⟨1, "X"⟩⟩] "X").2 (by decide)
    rw [h]
    rfl

/-- Claim C8: a prompt equal to the exit sentinel under case-insensitive
comparison terminates the session at once — both on the priming turn and
inside the loop — producing only the exit event, with no conversational
turn (and hence no tool invocation) for it or any later prompt. -/
theorem exit_sentinel_terminates (prompt : String) (rest : List String)
    (h : pyLower prompt = "exit") :
    sessionMain (prompt :: rest) = [SessionEvent.exited "See you next time"]
    ∧ sessionLoop (prompt :: rest) = [SessionEvent.exited "See you next time"] := by
  constructor <;> simp [sessionMain, sessionLoop, h]

/-- Witness for `exit_sentinel_terminates` at the prompt `EXIT`. -/
theorem exit_sentinel_terminates_witness :
    pyLower "EXIT" = "exit"
    ∧ sessionMain ["EXIT", "list my sheets"] = [SessionEvent.exited "See you next time"] :=
  ⟨by decide, (exit_sentinel_terminates "EXIT" ["list my sheets"] (by decide)).1⟩

/-- Claim C10: the exit check lowercases but does not strip the raw prompt,
while only the text handed to the agent runtime is stripped; hence a
prompt whose un-stripped lowercase form differs from `exit` — such as
`exit` surrounded by spaces — runs a conversational turn on its stripped
text instead of terminating. -/
theorem exit_check_uses_unstripped_input :
    (∀ (prompt : String) (rest : List String), pyLower prompt ≠ "exit" →
      sessionMain (prompt :: rest)
          = SessionEvent.ranTurn (pyStrip prompt) false :: sessionLoop rest
      ∧ sessionLoop (prompt :: rest)
          = SessionEvent.ranTurn (pyStrip prompt) true :: sessionLoop rest)
    ∧ pyLower " exit " ≠ "exit"
    ∧ pyStrip " exit " = "exit"
    ∧ sessionMain [" exit "] = [SessionEvent.ranTurn "exit" false] := by
  refine ⟨?_, by decide, by decide, by decide⟩
  intro prompt rest h
  have hb : (pyLower prompt == "exit") = false := beq_eq_false_iff_ne.mpr h
  constructor <;> simp [sessionMain, sessionLoop, hb]

/-- Witness for `exit_check_uses_unstripped_input`: the prompt with
surrounding spaces does not terminate the session; the following bare
`exit` does. -/
theorem exit_check_uses_unstripped_input_witness :
    pyLower " exit " ≠ "exit"
    ∧ sessionMain [" exit ", "exit"]
        = [SessionEvent.ranTurn "exit" false, SessionEvent.exited "See you next time"] := by
  have h : pyLower " exit " ≠ "exit" := by decide
  refine ⟨h, ?_⟩
  have hm := (exit_check_uses_unstripped_input.1 " exit " ["exit"] h).1
  rw [hm]
  rfl

end SheetsAgent
